import Mathlib

/-!
Verification of the job-orchestration callback core of the
step-function-eventbridge repository: the Job Simulator
(`createJob`/`checkStatus`), the Job Creator, and the Poller/Resumer
handler, shallowly embedded from the TypeScript source.

Modelling conventions:
* DynamoDB tables are association lists `List (String × α)` keyed by
  `jobId`; `GetItemCommand` is `lookupA`, `UpdateItemCommand` with a
  `SET` expression on an existing key is `setA`, `PutItemCommand` is
  `putA`.  Every `UpdateItemCommand` issued by the handlers targets a
  key previously observed via `GetItemCommand` (or just written), so
  the upsert-on-missing-key corner of DynamoDB never arises; `setA`
  leaves a missing key untouched.
* ISO timestamp strings (`new Date().toISOString()`) are modelled as
  `Nat` epoch milliseconds; the poller/creator take the current time
  as the parameter `now`.
* `Math.floor(Math.random() * 2)` in `createJob` is modelled by an
  explicit parameter `r`, used as `r % 2`.
* The side-effecting AWS calls of the poller (DynamoDB writes, the
  Lambda invoke of the simulator, `SendTaskSuccess`/`SendTaskFailure`)
  are recorded in order in an `Effect` trace.
-/

/-- Status of a TaskToken record, from the `TaskTokenRecord` interface of
the poller source. -/
inductive TokenStatus
  | POLLING
  | COMPLETED
  | FAILED
  | MAX_ATTEMPTS
  | TIMEOUT
deriving DecidableEq, Repr

/-- Status of a simulated Job, from the `JobStatus` interface of the
poller source and the `CheckStatusResponse` interface of the simulator. -/
inductive JobStatus
  | IN_PROGRESS
  | COMPLETED
  | FAILED
deriving DecidableEq, Repr

/-- String form of a `TokenStatus`, as returned by the poller's
idempotency gate (`return { status: currentStatus }`). -/
def statusToString : TokenStatus → String
  | .POLLING => "POLLING"
  | .COMPLETED => "COMPLETED"
  | .FAILED => "FAILED"
  | .MAX_ATTEMPTS => "MAX_ATTEMPTS"
  | .TIMEOUT => "TIMEOUT"

/-- A TaskToken item of the `poc-task-tokens` table, as written by the
Job Creator and mutated by the Poller. -/
structure TokenRecord where
  jobId : String
  taskToken : String
  executionId : String
  createdAt : Nat
  expiresAt : Nat
  attemptCount : Nat
  maxAttempts : Nat
  status : TokenStatus
  completedAt : Option Nat := none
deriving DecidableEq, Repr

/-- A Job item of the `poc-jobs` table, as written by the simulator's
`createJob` and mutated by `checkStatus`. -/
structure Job where
  jobId : String
  status : JobStatus
  pollCount : Nat
  completionPolls : Nat
  payload : String
  createdAt : Nat
  completedAt : Option Nat := none
deriving DecidableEq, Repr

/-- Association-list lookup: `GetItemCommand` on a table keyed by `jobId`. -/
def lookupA {α : Type} (store : List (String × α)) (k : String) : Option α :=
  (store.find? (fun p => p.1 == k)).map (fun p => p.2)

/-- Association-list in-place update: `UpdateItemCommand` with a `SET`
expression on key `k` (a no-op when `k` is absent; every such update in
the source follows a successful `GetItemCommand` on the same key). -/
def setA {α : Type} : List (String × α) → String → (α → α) →
    List (String × α)
  | [], _, _ => []
  | p :: rest, k, f =>
    (if p.1 == k then (p.1, f p.2) else p) :: setA rest k f

/-- Association-list insert/replace: `PutItemCommand` on key `k`. -/
def putA {α : Type} (store : List (String × α)) (k : String) (v : α) :
    List (String × α) :=
  (k, v) :: store.filter (fun p => !(p.1 == k))

/-- Token Store: the `poc-task-tokens` DynamoDB table. -/
abbrev TokenStore := List (String × TokenRecord)

/-- Job Store: the `poc-jobs` DynamoDB table. -/
abbrev JobStore := List (String × Job)

/-- Response of the simulator's `CHECK_STATUS` action (interface
`CheckStatusResponse`); `none` models the `{error: 'Job not found'}`
reply. -/
structure CheckStatusResponse where
  jobId : String
  status : JobStatus
  pollCount : Nat
  completionPolls : Nat
deriving DecidableEq, Repr

/-- Response of the simulator's `CREATE_JOB` action. -/
structure CreateJobResponse where
  jobId : String
  status : JobStatus
  completionPolls : Nat
deriving DecidableEq, Repr

/-- Simulator `createJob`: fresh job with a randomized completion
threshold (`Math.floor(Math.random()*2) + 2`, i.e. 2 or 3 polls),
`pollCount` 0, status IN_PROGRESS.  `newJobId` stands for the generated
`job-<timestamp>-<random>` id and `r` for the random draw. -/
def createJob (store : JobStore) (newJobId : String) (r : Nat)
    (payload : String) (now : Nat) : CreateJobResponse × JobStore :=
  let completionPolls := r % 2 + 2
  let job : Job :=
    { jobId := newJobId, status := .IN_PROGRESS, pollCount := 0,
      completionPolls := completionPolls, payload := payload,
      createdAt := now, completedAt := none }
  (⟨newJobId, .IN_PROGRESS, completionPolls⟩, putA store newJobId job)

/-- Simulator `checkStatus`: loads the job, increments `pollCount` by 1
and persists it, then, if the new count has reached `completionPolls`,
additionally sets `status = COMPLETED` and `completedAt`.  Returns the
threshold-derived status together with the updated store; `none` models
the `{error: 'Job not found'}` reply, which leaves the store untouched. -/
def checkStatus (store : JobStore) (jobId : String) (now : Nat) :
    Option CheckStatusResponse × JobStore :=
  match lookupA store jobId with
  | none => (none, store)
  | some job =>
    let newPollCount := job.pollCount + 1
    let store1 := setA store jobId (fun j => { j with pollCount := newPollCount })
    if newPollCount ≥ job.completionPolls then
      let store2 := setA store1 jobId
        (fun j => { j with status := .COMPLETED, completedAt := some now })
      (some ⟨jobId, .COMPLETED, newPollCount, job.completionPolls⟩, store2)
    else
      (some ⟨jobId, .IN_PROGRESS, newPollCount, job.completionPolls⟩, store1)

/-- Result payload of `SendTaskSuccess` (interface `CompletedJobResult`
of the poller source). -/
structure CompletedJobResult where
  jobId : String
  status : String
  completedAt : Nat
  attempts : Nat
  result : CheckStatusResponse
deriving DecidableEq, Repr

/-- An observable side effect of one poller invocation, in issue order. -/
inductive Effect
  | writeAttempt (jobId : String) (n : Nat)
  | writeStatus (jobId : String) (s : TokenStatus)
  | checkJob (jobId : String)
  | sendSuccess (taskToken : String) (output : CompletedJobResult)
  | sendFailure (taskToken : String) (error : String) (cause : String)
deriving DecidableEq, Repr

/-- Response of the poller handler (interface `PollerResponse`). -/
structure PollerResponse where
  status : String
  reconnected : Option Bool := none
  attempt : Option Nat := none
  maxAttempts : Option Nat := none
  error : Option String := none
deriving DecidableEq, Repr

/-- Full outcome of a poller invocation: the response, the post states
of both tables, and the ordered trace of side effects. -/
structure HandlerResult where
  response : PollerResponse
  tokens : TokenStore
  jobs : JobStore
  actions : List Effect
deriving DecidableEq, Repr

/-- The `updateStatus` helper of the poller source: one unconditional
`UpdateItemCommand` setting `status` and `completedAt` (there is no
`ConditionExpression`). -/
def updateStatus (store : TokenStore) (jobId : String) (status : TokenStatus)
    (now : Nat) : TokenStore :=
  setA store jobId (fun r => { r with status := status, completedAt := some now })

/-- The Poller/Resumer `handler`, run to completion as one sequential
invocation: (1) `GetItemCommand` on the token, `ERROR` when absent;
(2) idempotency gate on `status != POLLING`; (3) unconditional write of
the incremented `attemptCount`; (4) max-attempts check, transitioning to
MAX_ATTEMPTS and sending `SendTaskFailure`; (5) `CHECK_STATUS` invoke of
the simulator; (6)-(8) terminal or IN_PROGRESS handling.  An absent or
error simulator reply leaves `jobStatus.status` undefined in the source,
which falls through to the IN_PROGRESS branch. -/
def pollerHandler (tokens : TokenStore) (jobs : JobStore) (jobId : String)
    (now : Nat) : HandlerResult :=
  match lookupA tokens jobId with
  | none =>
    { response := { status := "ERROR", error := some "Token not found" },
      tokens := tokens, jobs := jobs, actions := [] }
  | some tok =>
    if tok.status ≠ TokenStatus.POLLING then
      { response := { status := statusToString tok.status },
        tokens := tokens, jobs := jobs, actions := [] }
    else
      let newAttemptCount := tok.attemptCount + 1
      let tokens1 := setA tokens jobId (fun r => { r with attemptCount := newAttemptCount })
      if newAttemptCount > tok.maxAttempts then
        let tokens2 := updateStatus tokens1 jobId .MAX_ATTEMPTS now
        { response := { status := "MAX_ATTEMPTS" },
          tokens := tokens2, jobs := jobs,
          actions := [.writeAttempt jobId newAttemptCount,
                      .writeStatus jobId .MAX_ATTEMPTS,
                      .sendFailure tok.taskToken "MaxAttemptsExceeded"
                        ("Exceeded " ++ toString tok.maxAttempts ++ " polling attempts")] }
      else
        let out := checkStatus jobs jobId now
        let jobs1 := out.2
        match out.1 with
        | some j =>
            if j.status = JobStatus.COMPLETED then
              let tokens2 := updateStatus tokens1 jobId .COMPLETED now
              { response := { status := "COMPLETED", reconnected := some true },
                tokens := tokens2, jobs := jobs1,
                actions := [.writeAttempt jobId newAttemptCount,
                            .checkJob jobId,
                            .writeStatus jobId .COMPLETED,
                            .sendSuccess tok.taskToken
                              ⟨jobId, "COMPLETED", now, newAttemptCount, j⟩] }
            else if j.status = JobStatus.FAILED then
              let tokens2 := updateStatus tokens1 jobId .FAILED now
              { response := { status := "FAILED" },
                tokens := tokens2, jobs := jobs1,
                actions := [.writeAttempt jobId newAttemptCount,
                            .checkJob jobId,
                            .writeStatus jobId .FAILED,
                            .sendFailure tok.taskToken "JobFailed" "External job failed"] }
            else
              { response := { status := "IN_PROGRESS",
                              attempt := some newAttemptCount,
                              maxAttempts := some tok.maxAttempts },
                tokens := tokens1, jobs := jobs1,
                actions := [.writeAttempt jobId newAttemptCount, .checkJob jobId] }
        | none =>
            { response := { status := "IN_PROGRESS",
                            attempt := some newAttemptCount,
                            maxAttempts := some tok.maxAttempts },
              tokens := tokens1, jobs := jobs1,
              actions := [.writeAttempt jobId newAttemptCount, .checkJob jobId] }

/-- Polling configuration passed to the Job Creator (interface
`PollingConfig`). -/
structure PollingConfig where
  intervalMinutes : Nat
  maxAttempts : Nat
  timeoutMinutes : Nat
deriving DecidableEq, Repr

/-- The Job Creator `handler`: invokes the simulator's `CREATE_JOB`
action, computes `expiresAt = now + timeoutMinutes*60*1000`, persists a
fresh TaskToken record with `status = POLLING` and `attemptCount = 0`,
and returns `{jobId, status: 'POLLING'}`.  `newJobId`, `r` and `payload`
parametrize the simulator call as in `createJob`. -/
def createJobHandler (tokens : TokenStore) (jobs : JobStore)
    (taskToken executionId : String) (cfg : PollingConfig)
    (newJobId : String) (r : Nat) (payload : String) (now : Nat) :
    (String × String) × TokenStore × JobStore :=
  let out := createJob jobs newJobId r payload now
  let jobData := out.1
  let jobs1 := out.2
  let expiresAt := now + cfg.timeoutMinutes * 60 * 1000
  let rec0 : TokenRecord :=
    { jobId := jobData.jobId, taskToken := taskToken,
      executionId := executionId, createdAt := now, expiresAt := expiresAt,
      attemptCount := 0, maxAttempts := cfg.maxAttempts,
      status := .POLLING, completedAt := none }
  let tokens1 := putA tokens jobData.jobId rec0
  ((jobData.jobId, "POLLING"), tokens1, jobs1)

/-- Program counter of one in-flight poller invocation, for the
fine-grained interleaving model.  Each constructor's pending step is a
single atomic AWS call of the source; values read earlier are carried as
arguments. -/
inductive Phase
  | start
  | incr (taskToken : String) (newCount maxA : Nat)
  | markMax (taskToken : String) (maxA : Nat)
  | notifyMax (taskToken : String) (maxA : Nat)
  | check (taskToken : String) (newCount maxA : Nat)
  | markDone (taskToken : String) (newCount : Nat) (j : CheckStatusResponse)
  | notify (taskToken : String) (newCount : Nat) (j : CheckStatusResponse)
  | finished (status : String)
deriving DecidableEq, Repr

/-- One in-flight poller invocation: the job id it was called with and
its program counter. -/
structure PollThread where
  jobId : String
  phase : Phase
deriving DecidableEq, Repr

/-- Shared state of the fine-grained model: both tables plus the log of
resume calls issued so far. -/
structure Sys where
  tokens : TokenStore
  jobs : JobStore
  sent : List Effect
deriving DecidableEq, Repr

/-- One atomic step of a poller invocation in the fine-grained model.
`start` performs the token `GetItemCommand` (the gate decision is local
computation on the value read); `incr` performs the unconditional
`attemptCount` write; `markMax`/`markDone` perform the `updateStatus`
write; `notifyMax`/`notify` issue the `SendTaskFailure`/`SendTaskSuccess`
call; `check` performs the simulator `CHECK_STATUS` invocation. -/
def stepThread (s : Sys) (t : PollThread) (now : Nat) : Sys × PollThread :=
  match t.phase with
  | .start =>
    match lookupA s.tokens t.jobId with
    | none => (s, { t with phase := .finished "ERROR" })
    | some tok =>
      if tok.status ≠ TokenStatus.POLLING then
        (s, { t with phase := .finished (statusToString tok.status) })
      else
        (s, { t with phase := .incr tok.taskToken (tok.attemptCount + 1) tok.maxAttempts })
  | .incr tk n m =>
    let tokens1 := setA s.tokens t.jobId (fun r => { r with attemptCount := n })
    if n > m then ({ s with tokens := tokens1 }, { t with phase := .markMax tk m })
    else ({ s with tokens := tokens1 }, { t with phase := .check tk n m })
  | .markMax tk m =>
    ({ s with tokens := updateStatus s.tokens t.jobId .MAX_ATTEMPTS now },
     { t with phase := .notifyMax tk m })
  | .notifyMax tk m =>
    ({ s with sent := s.sent ++ [.sendFailure tk "MaxAttemptsExceeded"
        ("Exceeded " ++ toString m ++ " polling attempts")] },
     { t with phase := .finished "MAX_ATTEMPTS" })
  | .check tk n _m =>
    let out := checkStatus s.jobs t.jobId now
    let jobs1 := out.2
    match out.1 with
    | some j =>
      if j.status = JobStatus.COMPLETED ∨ j.status = JobStatus.FAILED then
        ({ s with jobs := jobs1 }, { t with phase := .markDone tk n j })
      else
        ({ s with jobs := jobs1 }, { t with phase := .finished "IN_PROGRESS" })
    | none => ({ s with jobs := jobs1 }, { t with phase := .finished "IN_PROGRESS" })
  | .markDone tk n j =>
    let st : TokenStatus := if j.status = JobStatus.COMPLETED then .COMPLETED else .FAILED
    ({ s with tokens := updateStatus s.tokens t.jobId st now },
     { t with phase := .notify tk n j })
  | .notify tk n j =>
    if j.status = JobStatus.COMPLETED then
      ({ s with sent := s.sent ++ [.sendSuccess tk ⟨t.jobId, "COMPLETED", now, n, j⟩] },
       { t with phase := .finished "COMPLETED" })
    else
      ({ s with sent := s.sent ++ [.sendFailure tk "JobFailed" "External job failed"] },
       { t with phase := .finished "FAILED" })
  | .finished st => (s, { t with phase := .finished st })

/-- Run a list of poller invocations under an explicit schedule: each
entry of `sched` is the index of the thread that takes the next atomic
step. -/
def runSched (s : Sys) (threads : List PollThread) (now : Nat) :
    List Nat → Sys × List PollThread
  | [] => (s, threads)
  | i :: rest =>
    match threads.get? i with
    | none => runSched s threads now rest
    | some t =>
      let out := stepThread s t now
      runSched out.1 (threads.set i out.2) now rest

/-- Number of resume calls (`SendTaskSuccess` or `SendTaskFailure`) in
an effect log. -/
def countResumeCalls (l : List Effect) : Nat :=
  l.countP (fun a =>
    match a with
    | .sendSuccess _ _ => true
    | .sendFailure _ _ _ => true
    | _ => false)

/-- Boolean test for resume-call effects. -/
def isResumeCall : Effect → Bool
  | .sendSuccess _ _ => true
  | .sendFailure _ _ _ => true
  | _ => false

/-- Boolean test for a terminal (non-POLLING) status write on `jobId`. -/
def isTerminalWrite (jobId : String) : Effect → Bool
  | .writeStatus j s => j == jobId && !(s == TokenStatus.POLLING)
  | _ => false

/-- Boolean test for the `attemptCount` write on `jobId`. -/
def isAttemptWrite (jobId : String) : Effect → Bool
  | .writeAttempt j _ => j == jobId
  | _ => false

/-- Boolean test for the simulator `CHECK_STATUS` invocation on `jobId`. -/
def isCheckJob (jobId : String) : Effect → Bool
  | .checkJob j => j == jobId
  | _ => false

/-- Helper for `everyGuarded`: `seen` records whether a `p`-effect has
already occurred. -/
def everyGuardedAux (q p : Effect → Bool) : List Effect → Bool → Bool
  | [], _ => true
  | a :: rest, seen => (!(q a) || seen) && everyGuardedAux q p rest (seen || p a)

/-- In the trace `l`, every effect satisfying `q` is strictly preceded
by some effect satisfying `p`. -/
def everyGuarded (q p : Effect → Bool) (l : List Effect) : Bool :=
  everyGuardedAux q p l false

/-- Iterated sequential poller invocations: each entry of `calls` is a
`(jobId, now)` pair for one full (atomic) invocation of the poller. -/
def pollIter (tokens : TokenStore) (jobs : JobStore) :
    List (String × Nat) → TokenStore × JobStore
  | [] => (tokens, jobs)
  | c :: rest =>
    let out := pollerHandler tokens jobs c.1 c.2
    pollIter out.tokens out.jobs rest

/-- Iterated simulator `checkStatus` calls on one job. -/
def checkStatusIter (store : JobStore) (jobId : String) (now : Nat) :
    Nat → JobStore
  | 0 => store
  | k + 1 => (checkStatus (checkStatusIter store jobId now k) jobId now).2

/-- TaskToken attempt-bound invariant: in a non-MAX_ATTEMPTS record the
attempt counter is at most `maxAttempts + 1`. -/
def TokenInvB (r : TokenRecord) : Bool :=
  (r.status == TokenStatus.MAX_ATTEMPTS) || decide (r.attemptCount ≤ r.maxAttempts + 1)

/-- Every record of the Token Store satisfies `TokenInvB`. -/
def AllInvB (tokens : TokenStore) : Bool :=
  tokens.all (fun p => TokenInvB p.2)

/-- Status strings of the `Poll` interface contract of the spec. -/
def specStatuses : List String :=
  ["IN_PROGRESS", "COMPLETED", "FAILED", "MAX_ATTEMPTS"]

/-- Status strings the poller handler can actually return: the four
spec statuses, the stored TIMEOUT echoed by the idempotency gate, and
ERROR for a missing token. -/
def observedStatuses : List String :=
  ["IN_PROGRESS", "COMPLETED", "FAILED", "MAX_ATTEMPTS", "TIMEOUT", "ERROR"]

/-- Sample TaskToken record for concrete runs. -/
def sampleToken (a m : Nat) (st : TokenStatus) : TokenRecord :=
  { jobId := "job-1", taskToken := "tok-1", executionId := "exec-1",
    createdAt := 0, expiresAt := 3600000, attemptCount := a,
    maxAttempts := m, status := st, completedAt := none }

/-- Sample Job record for concrete runs. -/
def sampleJob (pc cp : Nat) (st : JobStatus) : Job :=
  { jobId := "job-1", status := st, pollCount := pc, completionPolls := cp,
    payload := "", createdAt := 0, completedAt := none }

/-- Initial shared state for the two-poller race: one POLLING token with
no attempts yet, and a job one status check away from completion. -/
def raceInit : Sys :=
  { tokens := [("job-1", sampleToken 0 10 .POLLING)],
    jobs := [("job-1", sampleJob 1 2 .IN_PROGRESS)],
    sent := [] }

/-- Two duplicate poller invocations for the same job. -/
def raceThreads : List PollThread :=
  [⟨"job-1", .start⟩, ⟨"job-1", .start⟩]

/-- Interleaving in which both invocations read the token (both observe
POLLING) before either writes a terminal status, then each runs to
completion. -/
def raceSched : List Nat := [0, 1, 0, 0, 0, 0, 1, 1, 1, 1]

/-- Final shared state of the two-poller race. -/
def raceResult : Sys := (runSched raceInit raceThreads 5 raceSched).1

/-- Boolean test for a FAILED status write. -/
def isFailedWrite : Effect → Bool
  | .writeStatus _ s => s == TokenStatus.FAILED
  | _ => false

/-- Boolean test for a `SendTaskFailure` call with error kind `JobFailed`. -/
def isJobFailedSend : Effect → Bool
  | .sendFailure _ e _ => e == "JobFailed"
  | _ => false

/-- Updating key `k` changes the looked-up value at `k` by `f`. -/
theorem lookupA_setA_self {α : Type} (s : List (String × α)) (k : String)
    (f : α → α) : lookupA (setA s k f) k = (lookupA s k).map f := by
  induction s with
  | nil => rfl
  | cons p rest ih =>
    by_cases hb : (p.1 == k) = true
    · simp [setA, lookupA, List.find?_cons, hb]
    · rw [Bool.not_eq_true] at hb
      simp only [setA, hb, Bool.false_eq_true, if_false, lookupA,
        List.find?_cons] at *
      exact ih

/-- Updating key `k` leaves the looked-up value at any other key alone. -/
theorem lookupA_setA_ne {α : Type} (s : List (String × α)) (k k' : String)
    (f : α → α) (h : k' ≠ k) : lookupA (setA s k f) k' = lookupA s k' := by
  induction s with
  | nil => rfl
  | cons p rest ih =>
    by_cases hb : (p.1 == k) = true
    · have hk : p.1 = k := by simpa using hb
      have hb' : (p.1 == k') = false := by
        subst hk; exact beq_eq_false_iff_ne.mpr (fun hh => h hh.symm)
      simp only [setA, hb, if_true, if_pos, lookupA, List.find?_cons] at *
      simp only [hb', Bool.false_eq_true] at *
      exact ih
    · rw [Bool.not_eq_true] at hb
      simp only [setA, hb, Bool.false_eq_true, if_false, lookupA,
        List.find?_cons] at *
      by_cases hb' : (p.1 == k') = true
      · simp [hb']
      · rw [Bool.not_eq_true] at hb'
        simp only [hb'] at *
        exact ih

/-- Inserting at key `k` makes the looked-up value at `k` the new one. -/
theorem lookupA_putA_self {α : Type} (s : List (String × α)) (k : String)
    (v : α) : lookupA (putA s k v) k = some v := by
  simp [putA, lookupA, List.find?_cons]

/-- Idempotency gate: a poll on a token whose stored status is not
POLLING returns the stored status and changes nothing. -/
theorem pollerHandler_gate (tokens : TokenStore) (jobs : JobStore)
    (jobId : String) (now : Nat) (tok : TokenRecord)
    (hget : lookupA tokens jobId = some tok)
    (hterm : tok.status ≠ TokenStatus.POLLING) :
    pollerHandler tokens jobs jobId now =
      { response := { status := statusToString tok.status },
        tokens := tokens, jobs := jobs, actions := [] } := by
  unfold pollerHandler
  rw [hget]
  simp [hterm]

/-- Single `checkStatus` call on an existing job: the reply and the
stored record, both determined by the pre-state. -/
theorem checkStatus_found (store : JobStore) (jobId : String) (now : Nat)
    (j : Job) (hget : lookupA store jobId = some j) :
    checkStatus store jobId now =
      (some ⟨jobId,
         (if j.completionPolls ≤ j.pollCount + 1 then .COMPLETED else .IN_PROGRESS),
         j.pollCount + 1, j.completionPolls⟩,
       (checkStatus store jobId now).2) ∧
    lookupA (checkStatus store jobId now).2 jobId =
      some { j with
             pollCount := j.pollCount + 1
             status := if j.completionPolls ≤ j.pollCount + 1 then .COMPLETED else j.status
             completedAt := if j.completionPolls ≤ j.pollCount + 1 then some now
                            else j.completedAt } := by
  unfold checkStatus
  rw [hget]
  by_cases hc : j.completionPolls ≤ j.pollCount + 1
  · simp only [ge_iff_le, hc, if_true, if_pos]
    refine ⟨trivial, ?_⟩
    rw [lookupA_setA_self, lookupA_setA_self, hget]
    rfl
  · simp only [ge_iff_le, hc, if_false, if_neg, not_false_iff]
    refine ⟨trivial, ?_⟩
    rw [lookupA_setA_self, hget]
    rfl

/-- Effect of a gate-passing poll on the polled token: the attempt
counter is incremented by exactly one, `maxAttempts` is unchanged, and
when the incremented counter exceeds `maxAttempts` the stored status
becomes MAX_ATTEMPTS (and only then). -/
theorem poll_polling_token (tokens : TokenStore) (jobs : JobStore)
    (jobId : String) (now : Nat) (tok : TokenRecord)
    (hget : lookupA tokens jobId = some tok)
    (hpol : tok.status = TokenStatus.POLLING) :
    ∃ r', lookupA (pollerHandler tokens jobs jobId now).tokens jobId = some r' ∧
      r'.attemptCount = tok.attemptCount + 1 ∧
      r'.maxAttempts = tok.maxAttempts ∧
      (tok.attemptCount + 1 > tok.maxAttempts → r'.status = TokenStatus.MAX_ATTEMPTS) ∧
      (tok.attemptCount + 1 ≤ tok.maxAttempts → r'.status ≠ TokenStatus.MAX_ATTEMPTS) := by
  unfold pollerHandler
  simp only [hget]
  rw [if_neg (show ¬ (tok.status ≠ TokenStatus.POLLING) by simp [hpol])]
  by_cases hm : tok.attemptCount + 1 > tok.maxAttempts
  · rw [if_pos hm]
    refine ⟨{ tok with attemptCount := tok.attemptCount + 1, status := .MAX_ATTEMPTS, completedAt := some now }, ?_, rfl, rfl, fun _ => rfl, fun hle => absurd hm (not_lt.mpr hle)⟩
    show lookupA (updateStatus (setA tokens jobId _) jobId _ now) jobId = _
    unfold updateStatus
    rw [lookupA_setA_self, lookupA_setA_self, hget]
    rfl
  · rw [if_neg hm]
    have hle : tok.attemptCount + 1 ≤ tok.maxAttempts := not_lt.mp hm
    cases hj : (checkStatus jobs jobId now).1 with
    | none =>
      simp only [hj]
      refine ⟨{ tok with attemptCount := tok.attemptCount + 1 }, ?_, rfl, rfl, fun hgt => absurd hgt hm, fun _ => by simp [hpol]⟩
      show lookupA (setA tokens jobId _) jobId = _
      rw [lookupA_setA_self, hget]
      rfl
    | some j =>
      simp only [hj]
      by_cases hc : j.status = JobStatus.COMPLETED
      · rw [if_pos hc]
        refine ⟨{ tok with attemptCount := tok.attemptCount + 1, status := .COMPLETED, completedAt := some now }, ?_, rfl, rfl, fun hgt => absurd hgt hm, fun _ => by simp⟩
        show lookupA (updateStatus (setA tokens jobId _) jobId _ now) jobId = _
        unfold updateStatus
        rw [lookupA_setA_self, lookupA_setA_self, hget]
        rfl
      · rw [if_neg hc]
        by_cases hf : j.status = JobStatus.FAILED
        · rw [if_pos hf]
          refine ⟨{ tok with attemptCount := tok.attemptCount + 1, status := .FAILED, completedAt := some now }, ?_, rfl, rfl, fun hgt => absurd hgt hm, fun _ => by simp⟩
          show lookupA (updateStatus (setA tokens jobId _) jobId _ now) jobId = _
          unfold updateStatus
          rw [lookupA_setA_self, lookupA_setA_self, hget]
          rfl
        · rw [if_neg hf]
          refine ⟨{ tok with attemptCount := tok.attemptCount + 1 }, ?_, rfl, rfl, fun hgt => absurd hgt hm, fun _ => by simp [hpol]⟩
          show lookupA (setA tokens jobId _) jobId = _
          rw [lookupA_setA_self, hget]
          rfl

/-- A poll for an unknown `jobId` reports `ERROR` and changes nothing. -/
theorem pollerHandler_notfound (tokens : TokenStore) (jobs : JobStore)
    (jobId : String) (now : Nat) (hget : lookupA tokens jobId = none) :
    pollerHandler tokens jobs jobId now =
      { response := { status := "ERROR", error := some "Token not found" },
        tokens := tokens, jobs := jobs, actions := [] } := by
  unfold pollerHandler
  simp only [hget]

/-- A poll never touches Token Store entries of other job ids. -/
theorem poll_tokens_frame (tokens : TokenStore) (jobs : JobStore)
    (jobId : String) (now : Nat) (k : String) (hne : k ≠ jobId) :
    lookupA (pollerHandler tokens jobs jobId now).tokens k = lookupA tokens k := by
  unfold pollerHandler
  cases hget : lookupA tokens jobId with
  | none => simp only [hget]
  | some tok =>
    simp only [hget]
    by_cases hpol : tok.status ≠ TokenStatus.POLLING
    · rw [if_pos hpol]
    · rw [if_neg hpol]
      by_cases hm : tok.attemptCount + 1 > tok.maxAttempts
      · rw [if_pos hm]
        show lookupA (updateStatus (setA tokens jobId _) jobId _ now) k = _
        unfold updateStatus
        rw [lookupA_setA_ne _ _ _ _ hne, lookupA_setA_ne _ _ _ _ hne]
      · rw [if_neg hm]
        cases hj : (checkStatus jobs jobId now).1 with
        | none =>
          simp only [hj]
          show lookupA (setA tokens jobId _) k = _
          rw [lookupA_setA_ne _ _ _ _ hne]
        | some j =>
          simp only [hj]
          by_cases hc : j.status = JobStatus.COMPLETED
          · rw [if_pos hc]
            show lookupA (updateStatus (setA tokens jobId _) jobId _ now) k = _
            unfold updateStatus
            rw [lookupA_setA_ne _ _ _ _ hne, lookupA_setA_ne _ _ _ _ hne]
          · rw [if_neg hc]
            by_cases hf : j.status = JobStatus.FAILED
            · rw [if_pos hf]
              show lookupA (updateStatus (setA tokens jobId _) jobId _ now) k = _
              unfold updateStatus
              rw [lookupA_setA_ne _ _ _ _ hne, lookupA_setA_ne _ _ _ _ hne]
            · rw [if_neg hf]
              show lookupA (setA tokens jobId _) k = _
              rw [lookupA_setA_ne _ _ _ _ hne]

/-- Per-key effect of one poll on any Token Store record: the attempt
counter grows by at most one and never shrinks, `maxAttempts` is
unchanged, and the attempt-bound invariant is preserved. -/
theorem poll_attempt_mono_key (tokens : TokenStore) (jobs : JobStore)
    (jobId : String) (now : Nat) (k : String) (r : TokenRecord)
    (hget : lookupA tokens k = some r) :
    ∃ r', lookupA (pollerHandler tokens jobs jobId now).tokens k = some r' ∧
      r.attemptCount ≤ r'.attemptCount ∧
      r'.attemptCount ≤ r.attemptCount + 1 ∧
      r'.maxAttempts = r.maxAttempts ∧
      (TokenInvB r = true → TokenInvB r' = true) := by
  by_cases hk : k = jobId
  · subst hk
    by_cases hpol : r.status = TokenStatus.POLLING
    · obtain ⟨r', h1, h2, h3, h4, h5⟩ :=
        poll_polling_token tokens jobs k now r hget hpol
      refine ⟨r', h1, by omega, by omega, h3, fun _ => ?_⟩
      by_cases hm : r.attemptCount + 1 > r.maxAttempts
      · have hst := h4 hm
        simp [TokenInvB, hst]
      · have hcnt : r'.attemptCount ≤ r'.maxAttempts + 1 := by
          rw [h2, h3]; omega
        simp [TokenInvB, hcnt]
    · rw [pollerHandler_gate tokens jobs k now r hget hpol]
      exact ⟨r, hget, le_refl _, Nat.le_succ _, rfl, fun h => h⟩
  · rw [poll_tokens_frame tokens jobs jobId now k hk]
    exact ⟨r, hget, le_refl _, Nat.le_succ _, rfl, fun h => h⟩

/-- Across any sequence of sequential polls, each Token Store record's
attempt counter is non-decreasing, its `maxAttempts` is unchanged, and
the attempt-bound invariant is preserved. -/
theorem pollIter_mono (calls : List (String × Nat)) (tokens : TokenStore)
    (jobs : JobStore) (k : String) (r : TokenRecord)
    (hget : lookupA tokens k = some r) :
    ∃ r', lookupA (pollIter tokens jobs calls).1 k = some r' ∧
      r.attemptCount ≤ r'.attemptCount ∧
      r'.maxAttempts = r.maxAttempts ∧
      (TokenInvB r = true → TokenInvB r' = true) := by
  induction calls generalizing tokens jobs r with
  | nil => exact ⟨r, hget, le_refl _, rfl, fun h => h⟩
  | cons c rest ih =>
    obtain ⟨r1, h1, hle, _hle1, hmax, hinv⟩ :=
      poll_attempt_mono_key tokens jobs c.1 c.2 k r hget
    obtain ⟨r', h1', hle', hmax', hinv'⟩ :=
      ih (pollerHandler tokens jobs c.1 c.2).tokens
        (pollerHandler tokens jobs c.1 c.2).jobs r1 h1
    refine ⟨r', ?_, le_trans hle hle', hmax'.trans hmax, fun h => hinv' (hinv h)⟩
    simpa [pollIter] using h1'

/-- Exhaustive case shape of one poller invocation: its response status
and its effect trace in each of the six source branches (token missing,
idempotency gate, max attempts, job COMPLETED, job FAILED, and the
IN_PROGRESS/unknown-reply fallthrough). -/
theorem pollerHandler_shape (tokens : TokenStore) (jobs : JobStore)
    (jobId : String) (now : Nat) :
    (lookupA tokens jobId = none ∧
      (pollerHandler tokens jobs jobId now).response.status = "ERROR" ∧
      (pollerHandler tokens jobs jobId now).actions = []) ∨
    (∃ tok, lookupA tokens jobId = some tok ∧
      tok.status ≠ TokenStatus.POLLING ∧
      (pollerHandler tokens jobs jobId now).response.status = statusToString tok.status ∧
      (pollerHandler tokens jobs jobId now).actions = []) ∨
    (∃ tok, lookupA tokens jobId = some tok ∧
      (pollerHandler tokens jobs jobId now).response.status = "MAX_ATTEMPTS" ∧
      (pollerHandler tokens jobs jobId now).actions =
        [.writeAttempt jobId (tok.attemptCount + 1),
         .writeStatus jobId .MAX_ATTEMPTS,
         .sendFailure tok.taskToken "MaxAttemptsExceeded"
           ("Exceeded " ++ toString tok.maxAttempts ++ " polling attempts")]) ∨
    (∃ tok j, lookupA tokens jobId = some tok ∧
      (checkStatus jobs jobId now).1 = some j ∧ j.status = JobStatus.COMPLETED ∧
      (pollerHandler tokens jobs jobId now).response.status = "COMPLETED" ∧
      (pollerHandler tokens jobs jobId now).actions =
        [.writeAttempt jobId (tok.attemptCount + 1),
         .checkJob jobId,
         .writeStatus jobId .COMPLETED,
         .sendSuccess tok.taskToken ⟨jobId, "COMPLETED", now, tok.attemptCount + 1, j⟩]) ∨
    (∃ tok j, lookupA tokens jobId = some tok ∧
      (checkStatus jobs jobId now).1 = some j ∧ j.status = JobStatus.FAILED ∧
      (pollerHandler tokens jobs jobId now).response.status = "FAILED" ∧
      (pollerHandler tokens jobs jobId now).actions =
        [.writeAttempt jobId (tok.attemptCount + 1),
         .checkJob jobId,
         .writeStatus jobId .FAILED,
         .sendFailure tok.taskToken "JobFailed" "External job failed"]) ∨
    (∃ tok, lookupA tokens jobId = some tok ∧
      (pollerHandler tokens jobs jobId now).response.status = "IN_PROGRESS" ∧
      (pollerHandler tokens jobs jobId now).actions =
        [.writeAttempt jobId (tok.attemptCount + 1), .checkJob jobId]) := by
  cases hget : lookupA tokens jobId with
  | none =>
    left
    rw [pollerHandler_notfound tokens jobs jobId now hget]
    exact ⟨rfl, rfl, rfl⟩
  | some tok =>
    by_cases hpol : tok.status = TokenStatus.POLLING
    · by_cases hm : tok.attemptCount + 1 > tok.maxAttempts
      · right; right; left
        refine ⟨tok, rfl, ?_⟩
        unfold pollerHandler
        simp only [hget]
        rw [if_neg (show ¬ (tok.status ≠ TokenStatus.POLLING) by simp [hpol])]
        rw [if_pos hm]
        constructor <;> trivial
      · cases hj : (checkStatus jobs jobId now).1 with
        | none =>
          right; right; right; right; right
          refine ⟨tok, rfl, ?_⟩
          unfold pollerHandler
          simp only [hget]
          rw [if_neg (show ¬ (tok.status ≠ TokenStatus.POLLING) by simp [hpol])]
          rw [if_neg hm]
          simp only [hj]
          constructor <;> trivial
        | some j =>
          by_cases hc : j.status = JobStatus.COMPLETED
          · right; right; right; left
            refine ⟨tok, j, rfl, rfl, hc, ?_⟩
            unfold pollerHandler
            simp only [hget]
            rw [if_neg (show ¬ (tok.status ≠ TokenStatus.POLLING) by simp [hpol])]
            rw [if_neg hm]
            simp only [hj]
            rw [if_pos hc]
            constructor <;> trivial
          · by_cases hf : j.status = JobStatus.FAILED
            · right; right; right; right; left
              refine ⟨tok, j, rfl, rfl, hf, ?_⟩
              unfold pollerHandler
              simp only [hget]
              rw [if_neg (show ¬ (tok.status ≠ TokenStatus.POLLING) by simp [hpol])]
              rw [if_neg hm]
              simp only [hj]
              rw [if_neg hc, if_pos hf]
              constructor <;> trivial
            · right; right; right; right; right
              refine ⟨tok, rfl, ?_⟩
              unfold pollerHandler
              simp only [hget]
              rw [if_neg (show ¬ (tok.status ≠ TokenStatus.POLLING) by simp [hpol])]
              rw [if_neg hm]
              simp only [hj]
              rw [if_neg hc, if_neg hf]
              constructor <;> trivial
    · right; left
      exact ⟨tok, rfl, hpol, by
        rw [pollerHandler_gate tokens jobs jobId now tok hget hpol], by
        rw [pollerHandler_gate tokens jobs jobId now tok hget hpol]⟩

/-- The simulator's `checkStatus` never reports a FAILED job: its reply
status ranges over IN_PROGRESS and COMPLETED only. -/
theorem checkStatus_no_failed (store : JobStore) (jobId : String) (now : Nat) :
    Option.map (fun j => j.status) (checkStatus store jobId now).1 ≠
      some JobStatus.FAILED := by
  unfold checkStatus
  cases hget : lookupA store jobId with
  | none => simp
  | some job =>
    by_cases hc : job.pollCount + 1 ≥ job.completionPolls
    · simp [hc]
    · simp [hc]

/-- A poll leaves an absent Token Store key absent. -/
theorem poll_preserves_none (tokens : TokenStore) (jobs : JobStore)
    (jobId : String) (now : Nat) (k : String)
    (h : lookupA tokens k = none) :
    lookupA (pollerHandler tokens jobs jobId now).tokens k = none := by
  by_cases hk : k = jobId
  · subst hk
    rw [pollerHandler_notfound tokens jobs k now h]
    exact h
  · rw [poll_tokens_frame tokens jobs jobId now k hk]
    exact h

/-- Iterated polls leave an absent Token Store key absent. -/
theorem pollIter_preserves_none (calls : List (String × Nat))
    (tokens : TokenStore) (jobs : JobStore) (k : String)
    (h : lookupA tokens k = none) :
    lookupA (pollIter tokens jobs calls).1 k = none := by
  induction calls generalizing tokens jobs with
  | nil => exact h
  | cons c rest ih =>
    simp only [pollIter]
    exact ih _ _ (poll_preserves_none tokens jobs c.1 c.2 k h)

/-- A successful lookup in a store satisfying `AllInvB` yields a record
satisfying `TokenInvB`. -/
theorem AllInvB_lookup (tokens : TokenStore) (k : String) (r : TokenRecord)
    (hall : AllInvB tokens = true) (hget : lookupA tokens k = some r) :
    TokenInvB r = true := by
  unfold lookupA at hget
  cases hfind : tokens.find? (fun p => p.1 == k) with
  | none => rw [hfind] at hget; simp at hget
  | some p =>
    rw [hfind] at hget
    simp at hget
    subst hget
    have hmem := List.mem_of_find?_eq_some hfind
    exact List.all_eq_true.mp hall p hmem

/-- C1: the exactly-once-resume property fails on the code as written.
Under the interleaving in which two duplicate polls (`raceThreads`) both
read the token while it is still POLLING (`raceSched`), both proceed
past the idempotency gate and both issue `SendTaskSuccess` on the same
stored task token, so two resume calls are issued for one job. -/
theorem race_double_resume :
    countResumeCalls raceResult.sent = 2 ∧
    (raceResult.sent.all (fun a =>
      match a with
      | .sendSuccess tk _ => tk == "tok-1"
      | _ => false)) = true := by decide

/-- C3: the POLLING-to-terminal transition is not a conditional update.
Evaluating `updateStatus` on a token whose stored status is already the
terminal COMPLETED still overwrites the status (here to MAX_ATTEMPTS):
the write carries no compare-and-swap condition on `status = POLLING`
and there is no failed-condition no-op path. -/
theorem updateStatus_overwrites_terminal :
    (sampleToken 1 3 .COMPLETED).status = TokenStatus.COMPLETED ∧
    Option.map (fun r => r.status)
      (lookupA (updateStatus [("job-1", sampleToken 1 3 .COMPLETED)]
        "job-1" .MAX_ATTEMPTS 9) "job-1") = some TokenStatus.MAX_ATTEMPTS := by
  decide

/-- C9 counterexample: a poll for a job id with no stored token returns
the status string "ERROR", and a poll against a stored TIMEOUT token
returns "TIMEOUT"; neither string is in the four-element status set of
the spec's `Poll` contract. -/
theorem poll_status_outside_spec_set :
    (pollerHandler [] [] "job-1" 0).response.status = "ERROR" ∧
    specStatuses.contains "ERROR" = false ∧
    (pollerHandler [("job-1", sampleToken 0 3 .TIMEOUT)] [] "job-1" 0).response.status = "TIMEOUT" ∧
    specStatuses.contains "TIMEOUT" = false := by
  decide

/-- C2: a poll against a token whose stored status is terminal (not
POLLING) returns the stored status and is a pure no-op: both stores are
unchanged (in particular no attemptCount increment) and no side effect,
in particular no resume call, is issued. -/
theorem poll_after_terminal_noop (tokens : TokenStore) (jobs : JobStore)
    (jobId : String) (now : Nat) (tok : TokenRecord)
    (hget : lookupA tokens jobId = some tok)
    (hterm : tok.status ≠ TokenStatus.POLLING) :
    (pollerHandler tokens jobs jobId now).response.status = statusToString tok.status ∧
    (pollerHandler tokens jobs jobId now).tokens = tokens ∧
    (pollerHandler tokens jobs jobId now).jobs = jobs ∧
    (pollerHandler tokens jobs jobId now).actions = [] := by
  rw [pollerHandler_gate tokens jobs jobId now tok hget hterm]
  exact ⟨rfl, rfl, rfl, rfl⟩

/-- Witness for C2 at a concrete COMPLETED token. -/
theorem poll_after_terminal_noop_witness :
    (pollerHandler [("job-1", sampleToken 2 3 .COMPLETED)] [] "job-1" 7).response.status =
      statusToString (sampleToken 2 3 .COMPLETED).status ∧
    (pollerHandler [("job-1", sampleToken 2 3 .COMPLETED)] [] "job-1" 7).tokens =
      [("job-1", sampleToken 2 3 .COMPLETED)] ∧
    (pollerHandler [("job-1", sampleToken 2 3 .COMPLETED)] [] "job-1" 7).jobs = [] ∧
    (pollerHandler [("job-1", sampleToken 2 3 .COMPLETED)] [] "job-1" 7).actions = [] :=
  poll_after_terminal_noop [("job-1", sampleToken 2 3 .COMPLETED)] [] "job-1" 7
    (sampleToken 2 3 .COMPLETED) (by decide) (by decide)

/-- C4: on a gate-passing poll whose post-increment attempt count
exceeds `maxAttempts`, the token transitions to MAX_ATTEMPTS (the new
status is persisted after the attempt write), `SendTaskFailure` is
issued with error kind `MaxAttemptsExceeded`, and the invocation stops
without querying the job (the Job Store is untouched and no `checkJob`
effect occurs); when the post-increment count is still within the bound
and the job reports IN_PROGRESS, no such transition happens and the job
is queried. -/
theorem max_attempts_boundary (tokens : TokenStore) (jobs : JobStore)
    (jobId : String) (now : Nat) (tok : TokenRecord)
    (hget : lookupA tokens jobId = some tok)
    (hpol : tok.status = TokenStatus.POLLING) :
    (tok.attemptCount + 1 > tok.maxAttempts →
      pollerHandler tokens jobs jobId now =
        { response := { status := "MAX_ATTEMPTS" },
          tokens := updateStatus
            (setA tokens jobId (fun r => { r with attemptCount := tok.attemptCount + 1 }))
            jobId .MAX_ATTEMPTS now,
          jobs := jobs,
          actions := [.writeAttempt jobId (tok.attemptCount + 1),
                      .writeStatus jobId .MAX_ATTEMPTS,
                      .sendFailure tok.taskToken "MaxAttemptsExceeded"
                        ("Exceeded " ++ toString tok.maxAttempts ++ " polling attempts")] }) ∧
    (tok.attemptCount + 1 ≤ tok.maxAttempts →
      ∀ j, (checkStatus jobs jobId now).1 = some j →
        j.status = JobStatus.IN_PROGRESS →
        pollerHandler tokens jobs jobId now =
          { response := { status := "IN_PROGRESS",
                          attempt := some (tok.attemptCount + 1),
                          maxAttempts := some tok.maxAttempts },
            tokens := setA tokens jobId (fun r => { r with attemptCount := tok.attemptCount + 1 }),
            jobs := (checkStatus jobs jobId now).2,
            actions := [.writeAttempt jobId (tok.attemptCount + 1), .checkJob jobId] }) := by
  constructor
  · intro hm
    unfold pollerHandler
    simp only [hget]
    rw [if_neg (show ¬ (tok.status ≠ TokenStatus.POLLING) by simp [hpol])]
    rw [if_pos hm]
  · intro hle j hj hjs
    unfold pollerHandler
    simp only [hget]
    rw [if_neg (show ¬ (tok.status ≠ TokenStatus.POLLING) by simp [hpol])]
    rw [if_neg (not_lt.mpr hle)]
    simp only [hj]
    rw [if_neg (show ¬ (j.status = JobStatus.COMPLETED) by simp [hjs])]
    rw [if_neg (show ¬ (j.status = JobStatus.FAILED) by simp [hjs])]

/-- Witness for C4 at `maxAttempts = 3`: the 4th poll (attempt count
becomes 4) fires the MAX_ATTEMPTS transition; the 3rd (attempt count
becomes 3) polls the still-IN_PROGRESS job instead. -/
theorem max_attempts_boundary_witness :
    (pollerHandler [("job-1", sampleToken 3 3 .POLLING)]
      [("job-1", sampleJob 0 100 .IN_PROGRESS)] "job-1" 9).response.status = "MAX_ATTEMPTS" ∧
    (pollerHandler [("job-1", sampleToken 2 3 .POLLING)]
      [("job-1", sampleJob 0 100 .IN_PROGRESS)] "job-1" 9).response.status = "IN_PROGRESS" := by
  constructor
  · rw [(max_attempts_boundary _ _ "job-1" 9 (sampleToken 3 3 .POLLING)
      (by decide) rfl).1 (by decide)]
  · rw [(max_attempts_boundary _ _ "job-1" 9 (sampleToken 2 3 .POLLING)
      (by decide) rfl).2 (by decide) ⟨"job-1", .IN_PROGRESS, 1, 100⟩ (by decide) rfl]

/-- C5: for a job stored with `pollCount = 0`, status IN_PROGRESS and
`completionPolls = N ≥ 1`, each `checkStatus` call increments
`pollCount` by exactly one (after `k` calls it is exactly `k`, so it
never decreases), the stored status is COMPLETED precisely from the Nth
call on (never earlier), the reply of the `(k+1)`-st call is COMPLETED
precisely when `N ≤ k+1`, and a job once COMPLETED stays COMPLETED
through any further `checkStatus` call. -/
theorem job_threshold_correctness (jobs : JobStore) (jobId : String)
    (now : Nat) (N : Nat) (j0 : Job)
    (hget : lookupA jobs jobId = some j0)
    (hpc : j0.pollCount = 0) (hst : j0.status = JobStatus.IN_PROGRESS)
    (hcp : j0.completionPolls = N) (hN : 1 ≤ N) :
    (∀ k, ∃ jk, lookupA (checkStatusIter jobs jobId now k) jobId = some jk ∧
        jk.pollCount = k ∧ jk.completionPolls = N ∧
        (jk.status = JobStatus.COMPLETED ↔ N ≤ k)) ∧
    (∀ k, (checkStatus (checkStatusIter jobs jobId now k) jobId now).1 =
        some ⟨jobId, if N ≤ k + 1 then .COMPLETED else .IN_PROGRESS, k + 1, N⟩) ∧
    (∀ store j, lookupA store jobId = some j → j.status = JobStatus.COMPLETED →
        ∃ j', lookupA (checkStatus store jobId now).2 jobId = some j' ∧
          j'.status = JobStatus.COMPLETED) ∧
    (∀ (store : JobStore) (newJobId : String) (r : Nat) (payload : String)
       (t : Nat),
       ∃ jc, lookupA (createJob store newJobId r payload t).2 newJobId = some jc ∧
         jc.pollCount = 0 ∧ jc.status = JobStatus.IN_PROGRESS ∧
         jc.completionPolls = r % 2 + 2 ∧ 1 ≤ jc.completionPolls) := by
  have main : ∀ k, ∃ jk,
      lookupA (checkStatusIter jobs jobId now k) jobId = some jk ∧
      jk.pollCount = k ∧ jk.completionPolls = N ∧
      (jk.status = JobStatus.COMPLETED ↔ N ≤ k) := by
    intro k
    induction k with
    | zero =>
      refine ⟨j0, hget, hpc, hcp, ?_⟩
      rw [hst]
      constructor
      · intro h; cases h
      · intro h; omega
    | succ k ih =>
      obtain ⟨jk, hk, hkpc, hkcp, hkiff⟩ := ih
      have step := (checkStatus_found _ jobId now jk hk).2
      refine ⟨_, by simpa [checkStatusIter] using step, ?_, ?_, ?_⟩
      · show jk.pollCount + 1 = k + 1
        rw [hkpc]
      · show jk.completionPolls = N
        exact hkcp
      · show (if jk.completionPolls ≤ jk.pollCount + 1 then JobStatus.COMPLETED
              else jk.status) = JobStatus.COMPLETED ↔ N ≤ k + 1
        rw [hkcp, hkpc]
        by_cases hc : N ≤ k + 1
        · simp [hc]
        · rw [if_neg hc, hkiff]
          omega
  refine ⟨main, ?_, ?_, ?_⟩
  · intro k
    obtain ⟨jk, hk, hkpc, hkcp, _⟩ := main k
    have h1 := congrArg Prod.fst ((checkStatus_found _ jobId now jk hk).1)
    simp only [] at h1
    rw [h1, hkpc, hkcp]
  · intro store j hj hjc
    refine ⟨_, (checkStatus_found store jobId now j hj).2, ?_⟩
    show (if j.completionPolls ≤ j.pollCount + 1 then JobStatus.COMPLETED
          else j.status) = JobStatus.COMPLETED
    by_cases hc : j.completionPolls ≤ j.pollCount + 1
    · rw [if_pos hc]
    · rw [if_neg hc, hjc]
  · intro store newJobId r payload t
    rw [show (createJob store newJobId r payload t).2 =
        putA store newJobId
          { jobId := newJobId, status := .IN_PROGRESS, pollCount := 0,
            completionPolls := r % 2 + 2, payload := payload,
            createdAt := t, completedAt := none } from rfl]
    rw [lookupA_putA_self]
    refine ⟨_, rfl, rfl, rfl, rfl, ?_⟩
    show 1 ≤ r % 2 + 2
    omega

/-- Witness for C5: with `completionPolls = 2`, the second `checkStatus`
call reports COMPLETED. -/
theorem job_threshold_correctness_witness :
    (checkStatus (checkStatusIter [("job-1", sampleJob 0 2 .IN_PROGRESS)]
      "job-1" 3 1) "job-1" 3).1 =
      some ⟨"job-1", if 2 ≤ 1 + 1 then .COMPLETED else .IN_PROGRESS, 1 + 1, 2⟩ :=
  (job_threshold_correctness [("job-1", sampleJob 0 2 .IN_PROGRESS)] "job-1" 3 2
    (sampleJob 0 2 .IN_PROGRESS) (by decide) rfl rfl rfl (by decide)).2.1 1

/-- C6: in every poller invocation, any resume call (`SendTaskSuccess`
or `SendTaskFailure`) in the effect trace is strictly preceded by the
Token Store write that sets a terminal status for the polled job id:
the notification is never issued before the terminal status is
persisted. -/
theorem terminal_write_precedes_resume (tokens : TokenStore)
    (jobs : JobStore) (jobId : String) (now : Nat) :
    everyGuarded isResumeCall (isTerminalWrite jobId)
      (pollerHandler tokens jobs jobId now).actions = true := by
  rcases pollerHandler_shape tokens jobs jobId now with
    ⟨_, _, hA⟩ | ⟨tok, _, _, _, hA⟩ | ⟨tok, _, _, hA⟩ |
    ⟨tok, j, _, _, _, _, hA⟩ | ⟨tok, j, _, _, _, _, hA⟩ | ⟨tok, _, _, hA⟩ <;>
  rw [hA] <;>
  simp [everyGuarded, everyGuardedAux, isResumeCall, isTerminalWrite]

/-- C7: a token's attempt counter is non-decreasing across any sequence
of sequential polls; a poll that finds the token POLLING increments it
by exactly one; and in every invocation the attempt-count write is
issued before the simulator status check. -/
theorem attempt_monotonicity :
    (∀ (tokens : TokenStore) (jobs : JobStore) (calls : List (String × Nat))
       (k : String) (r : TokenRecord), lookupA tokens k = some r →
       ∃ r', lookupA (pollIter tokens jobs calls).1 k = some r' ∧
         r.attemptCount ≤ r'.attemptCount) ∧
    (∀ (tokens : TokenStore) (jobs : JobStore) (jobId : String) (now : Nat)
       (tok : TokenRecord), lookupA tokens jobId = some tok →
       tok.status = TokenStatus.POLLING →
       ∃ r', lookupA (pollerHandler tokens jobs jobId now).tokens jobId = some r' ∧
         r'.attemptCount = tok.attemptCount + 1) ∧
    (∀ (tokens : TokenStore) (jobs : JobStore) (jobId : String) (now : Nat),
       everyGuarded (isCheckJob jobId) (isAttemptWrite jobId)
         (pollerHandler tokens jobs jobId now).actions = true) := by
  refine ⟨?_, ?_, ?_⟩
  · intro tokens jobs calls k r hget
    obtain ⟨r', h1, h2, _, _⟩ := pollIter_mono calls tokens jobs k r hget
    exact ⟨r', h1, h2⟩
  · intro tokens jobs jobId now tok hget hpol
    obtain ⟨r', h1, h2, _, _, _⟩ :=
      poll_polling_token tokens jobs jobId now tok hget hpol
    exact ⟨r', h1, h2⟩
  · intro tokens jobs jobId now
    rcases pollerHandler_shape tokens jobs jobId now with
      ⟨_, _, hA⟩ | ⟨tok, _, _, _, hA⟩ | ⟨tok, _, _, hA⟩ |
      ⟨tok, j, _, _, _, _, hA⟩ | ⟨tok, j, _, _, _, _, hA⟩ | ⟨tok, _, _, hA⟩ <;>
    rw [hA] <;>
    simp [everyGuarded, everyGuardedAux, isCheckJob, isAttemptWrite]

/-- Witness for C7: one poll on a POLLING token with attempt count 0
leaves it with attempt count 1. -/
theorem attempt_monotonicity_witness :
    Option.map (fun r => r.attemptCount)
      (lookupA (pollerHandler [("job-1", sampleToken 0 3 .POLLING)]
        [("job-1", sampleJob 0 100 .IN_PROGRESS)] "job-1" 4).tokens "job-1") =
      some 1 := by
  obtain ⟨r', h1, h2⟩ := attempt_monotonicity.2.1
    [("job-1", sampleToken 0 3 .POLLING)] [("job-1", sampleJob 0 100 .IN_PROGRESS)]
    "job-1" 4 (sampleToken 0 3 .POLLING) (by decide) rfl
  rw [h1]
  simp [h2, sampleToken]

/-- C8: across any sequence of sequential polls starting from a Token
Store whose records all satisfy the attempt bound, every reachable
record with a non-MAX_ATTEMPTS status has `attemptCount ≤ maxAttempts + 1`;
one poll invocation increments any record's attempt counter at most
once; and the record persisted by the Job Creator starts at
`attemptCount = 0`, status POLLING, satisfying the bound. -/
theorem attempt_bound_invariant :
    (∀ (tokens : TokenStore) (jobs : JobStore) (calls : List (String × Nat))
       (k : String) (r : TokenRecord),
       AllInvB tokens = true →
       lookupA (pollIter tokens jobs calls).1 k = some r →
       TokenInvB r = true) ∧
    (∀ (tokens : TokenStore) (jobs : JobStore) (jobId : String) (now : Nat)
       (k : String) (r r' : TokenRecord),
       lookupA tokens k = some r →
       lookupA (pollerHandler tokens jobs jobId now).tokens k = some r' →
       r'.attemptCount ≤ r.attemptCount + 1) ∧
    (∀ (tokens : TokenStore) (jobs : JobStore) (taskToken executionId : String)
       (cfg : PollingConfig) (newJobId : String) (r : Nat) (payload : String)
       (now : Nat),
       Option.map (fun rec0 => (rec0.attemptCount, rec0.status, TokenInvB rec0))
         (lookupA (createJobHandler tokens jobs taskToken executionId cfg
           newJobId r payload now).2.1 newJobId) =
       some (0, TokenStatus.POLLING, true)) := by
  refine ⟨?_, ?_, ?_⟩
  · intro tokens jobs calls k r hall hlook
    cases hb : lookupA tokens k with
    | none =>
      rw [pollIter_preserves_none calls tokens jobs k hb] at hlook
      cases hlook
    | some r0 =>
      obtain ⟨r1, h1, _, _, hinv⟩ := pollIter_mono calls tokens jobs k r0 hb
      rw [h1] at hlook
      cases hlook
      exact hinv (AllInvB_lookup tokens k r0 hall hb)
  · intro tokens jobs jobId now k r r' hget hafter
    obtain ⟨r1, h1, _, hle1, _, _⟩ :=
      poll_attempt_mono_key tokens jobs jobId now k r hget
    rw [h1] at hafter
    cases hafter
    exact hle1
  · intro tokens jobs taskToken executionId cfg newJobId r payload now
    rw [show (createJobHandler tokens jobs taskToken executionId cfg newJobId
          r payload now).2.1 =
        putA tokens newJobId
          { jobId := newJobId, taskToken := taskToken,
            executionId := executionId, createdAt := now,
            expiresAt := now + cfg.timeoutMinutes * 60 * 1000,
            attemptCount := 0, maxAttempts := cfg.maxAttempts,
            status := .POLLING, completedAt := none } from rfl]
    rw [lookupA_putA_self]
    simp [TokenInvB]

/-- Witness for C8: after two polls on a fresh token with
`maxAttempts = 3`, the stored record satisfies the attempt bound. -/
theorem attempt_bound_invariant_witness :
    TokenInvB { jobId := "job-1", taskToken := "tok-1",
                executionId := "exec-1", createdAt := 0, expiresAt := 3600000,
                attemptCount := 2, maxAttempts := 3, status := .POLLING,
                completedAt := none } = true :=
  attempt_bound_invariant.1 [("job-1", sampleToken 0 3 .POLLING)]
    [("job-1", sampleJob 0 100 .IN_PROGRESS)] [("job-1", 1), ("job-1", 2)]
    "job-1" _ (by decide) (by decide)

/-- C9 (amended): the status string returned by the poller handler is
drawn from exactly the six-element set `observedStatuses` — the four
statuses of the spec's `Poll` contract plus the stored TIMEOUT status
echoed by the idempotency gate and the ERROR reply for a missing token;
each of the six values is attained at some store state. -/
theorem poll_status_in_observed_set :
    (∀ (tokens : TokenStore) (jobs : JobStore) (jobId : String) (now : Nat),
       (pollerHandler tokens jobs jobId now).response.status ∈ observedStatuses) ∧
    (pollerHandler [("job-1", sampleToken 0 3 .POLLING)]
      [("job-1", sampleJob 0 100 .IN_PROGRESS)] "job-1" 0).response.status = "IN_PROGRESS" ∧
    (pollerHandler [("job-1", sampleToken 0 3 .POLLING)]
      [("job-1", sampleJob 1 2 .IN_PROGRESS)] "job-1" 0).response.status = "COMPLETED" ∧
    (pollerHandler [("job-1", sampleToken 0 3 .FAILED)] [] "job-1" 0).response.status = "FAILED" ∧
    (pollerHandler [("job-1", sampleToken 5 3 .POLLING)] [] "job-1" 0).response.status = "MAX_ATTEMPTS" ∧
    (pollerHandler [("job-1", sampleToken 0 3 .TIMEOUT)] [] "job-1" 0).response.status = "TIMEOUT" ∧
    (pollerHandler [] [] "job-1" 0).response.status = "ERROR" := by
  refine ⟨?_, by decide, by decide, by decide, by decide, by decide, by decide⟩
  intro tokens jobs jobId now
  rcases pollerHandler_shape tokens jobs jobId now with
    ⟨_, hS, _⟩ | ⟨tok, _, hne, hS, _⟩ | ⟨tok, _, hS, _⟩ |
    ⟨tok, j, _, _, _, hS, _⟩ | ⟨tok, j, _, _, _, hS, _⟩ | ⟨tok, _, hS, _⟩
  · rw [hS]; decide
  · rw [hS]
    cases h : tok.status
    · exact absurd h hne
    all_goals simp [statusToString, observedStatuses]
  · rw [hS]; decide
  · rw [hS]; decide
  · rw [hS]; decide
  · rw [hS]; decide

/-- C10: the simulator's `checkStatus` never reports a FAILED job, so
with the simulator as the job backend the poller's FAILED branch is
unreachable: no invocation ever writes token status FAILED or issues a
`SendTaskFailure` with error kind `JobFailed`. -/
theorem simulator_failed_branch_unreachable :
    (∀ (jobs : JobStore) (jobId : String) (now : Nat),
       ((checkStatus jobs jobId now).1.all
         (fun j => !(j.status == JobStatus.FAILED))) = true) ∧
    (∀ (tokens : TokenStore) (jobs : JobStore) (jobId : String) (now : Nat),
       ((pollerHandler tokens jobs jobId now).actions.all
         (fun a => !(isFailedWrite a) && !(isJobFailedSend a))) = true) := by
  refine ⟨?_, ?_⟩
  · intro jobs jobId now
    unfold checkStatus
    cases hget : lookupA jobs jobId with
    | none => rfl
    | some job =>
      by_cases hc : job.pollCount + 1 ≥ job.completionPolls
      · simp [hc]
      · simp [hc]
  intro tokens jobs jobId now
  rcases pollerHandler_shape tokens jobs jobId now with
    ⟨_, _, hA⟩ | ⟨tok, _, _, _, hA⟩ | ⟨tok, _, _, hA⟩ |
    ⟨tok, j, _, _, _, _, hA⟩ | ⟨tok, j, _, hj, hf, _, hA⟩ | ⟨tok, _, _, hA⟩
  · rw [hA]; rfl
  · rw [hA]; rfl
  · rw [hA]
    simp [isFailedWrite, isJobFailedSend]
  · rw [hA]
    simp [isFailedWrite, isJobFailedSend]
  · exact absurd (show Option.map (fun x => x.status)
      (checkStatus jobs jobId now).1 = some JobStatus.FAILED by
        rw [hj]; simp [hf]) (checkStatus_no_failed jobs jobId now)
  · rw [hA]
    simp [isFailedWrite, isJobFailedSend]
